import Mathlib

/-!
Shallow embedding of `src/include/grl/kuka/KukaJAVAdriver.hpp` (class
`grl::robot::arm::KukaJAVAdriver`), the state-synchronization and per-tick
message-construction core of the grl KUKA JAVA driver.

Modelling conventions:
* `double` payloads are modelled as `Rat`; the core only copies these values
  (no arithmetic is performed on them), so only their identity matters.
* `std::vector<double>` is modelled as `List Rat`; a default-constructed
  vector is the empty list.
* The external collaborators (azmq socket, flatbuffer builder, io_service,
  worker thread) are modelled by the observable effects the driver code
  produces through them: the outgoing message content, the error message on
  bind/connect failure, and boolean presence flags for the keep-alive work
  token, worker thread and Transport handle.
-/

namespace grl
namespace robot
namespace arm

/-- The 12-field `Params` tuple (KukaJAVAdriver.hpp lines 49-78), indexed by
`ParamIndex`; all fields are strings. -/
structure Params where
  robotTipName : String
  robotTargetName : String
  robotTargetBaseName : String
  localZMQAddress : String
  remoteZMQAddress : String
  localHostKukaKoniUDPAddress : String
  localHostKukaKoniUDPPort : String
  remoteHostKukaKoniUDPAddress : String
  remoteHostKukaKoniUDPPort : String
  kukaCommandMode : String
  kukaMonitorMode : String
  ikGroupName : String
deriving DecidableEq

/-- Function `defaultParams()` (KukaJAVAdriver.hpp lines 81-96): the literal default
parameter table. -/
def defaultParams : Params :=
  { robotTipName := "RobotMillTip"
    robotTargetName := "RobotMillTipTarget"
    robotTargetBaseName := "Robotiiwa"
    localZMQAddress := "tcp://0.0.0.0:30010"
    remoteZMQAddress := "tcp://172.31.1.147:30010"
    localHostKukaKoniUDPAddress := "192.170.10.100"
    localHostKukaKoniUDPPort := "30200"
    remoteHostKukaKoniUDPAddress := "192.170.10.2"
    remoteHostKukaKoniUDPPort := "30200"
    kukaCommandMode := "JAVA"
    kukaMonitorMode := "JAVA"
    ikGroupName := "IK_Group1_iiwa" }

/-- Modelled from the spec: the `KukaState` type of `armState` is declared in
`grl/kuka/Kuka.hpp`, which is not part of this source tree.  Only the fields
this driver file touches are modelled: the commanded joint position, the
commanded joint torque, the measured torque feedback (`torque`, spec section 3
"Measured/auxiliary fields: torque feedback"), and the commanded Cartesian
wrench feed-forward.  Each is a sequence of scalars; default construction
yields empty sequences (C++ `std::vector` default constructor). -/
structure KukaState where
  commandedPosition : List Rat
  commandedTorque : List Rat
  torque : List Rat
  commandedCartesianWrenchFeedForward : List Rat
deriving DecidableEq

/-- A default-constructed `KukaState`: all sequences empty. -/
def KukaState.init : KukaState :=
  { commandedPosition := []
    commandedTorque := []
    torque := []
    commandedCartesianWrenchFeedForward := [] }

/-- Modelled from the spec: the outgoing flatbuffer message type
`grl::flatbuffer::JointState` is produced by the generated header
`JointState_generated.h`, which is not part of this source tree.  Per the
spec (section 6, "Outgoing message schema") it is a three-field record with
fixed field order position, velocity, acceleration; the call
`CreateJointState(*fbbP, jointPos, jointVel, jointAccel)` at line 230 maps
its three vector arguments to those fields in that order. -/
structure JointState where
  position : List Rat
  velocity : List Rat
  acceleration : List Rat
deriving DecidableEq

/-- Driver state: the data members of class `KukaJAVAdriver`
(KukaJAVAdriver.hpp lines 240-248 and 325-332).  The four `volatile
std::size_t` health counters keep their C++ names; `device_driver_workP_`,
`driver_threadP` and `kukaJavaDriverP` are smart pointers to external
collaborators, modelled by whether they currently hold an object. -/
structure KukaJAVAdriver where
  params_ : Params
  m_haveReceivedRealDataCount : Nat
  m_attemptedCommunicationCount : Nat
  m_attemptedCommunicationConsecutiveFailureCount : Nat
  m_attemptedCommunicationConsecutiveSuccessCount : Nat
  device_driver_workP_ : Bool
  driver_threadP : Bool
  kukaJavaDriverP : Option Unit
  armState : KukaState
deriving DecidableEq

/-- The constructor `KukaJAVAdriver(Params params = defaultParams())`
(lines 132-134): stores the params; every other member is default-initialized
(counters `= 0` per lines 240-243, smart pointers empty, `armState`
default-constructed). -/
def KukaJAVAdriver.init (params : Params := defaultParams) : KukaJAVAdriver :=
  { params_ := params
    m_haveReceivedRealDataCount := 0
    m_attemptedCommunicationCount := 0
    m_attemptedCommunicationConsecutiveFailureCount := 0
    m_attemptedCommunicationConsecutiveSuccessCount := 0
    device_driver_workP_ := false
    driver_threadP := false
    kukaJavaDriverP := none
    armState := KukaState.init }

/-- Member `construct(Params params)` (lines 140-165).  The outcomes of the external
`socket.bind` and `socket.connect` calls are inputs of the model.  The code:
stores `params_ = params`; creates the keep-alive work token; then tries to
bind the local ZMQ address and connect the remote ZMQ address.  On success it
wraps the socket in an `AzmqFlatbuffer` Transport handle and spawns the
worker thread.  On failure (a `boost::exception` from bind or connect, so
`connectOk` is only consulted when `bindOk` holds) the catch block augments
the exception with `errmsg_info` text naming both attempted addresses and
rethrows; the Transport handle and worker thread are never created.  The
result pairs the post-state with `none` on success or `some errorText` for
the synchronously propagated exception. -/
def KukaJAVAdriver.construct (d : KukaJAVAdriver) (params : Params)
    (bindOk connectOk : Bool) : KukaJAVAdriver × Option String :=
  let d1 : KukaJAVAdriver :=
    { d with params_ := params, device_driver_workP_ := true }
  if bindOk && connectOk then
    ({ d1 with kukaJavaDriverP := some (), driver_threadP := true }, none)
  else
    (d1, some ("KukaLBRiiwaRosPlugin: Unable to connect to ZeroMQ Socket from "
      ++ params.localZMQAddress ++ " to " ++ params.remoteZMQAddress))

/-- Member `setState(State& state)` (line 170): does nothing and returns `true`. -/
def KukaJAVAdriver.setState (d : KukaJAVAdriver) : KukaJAVAdriver × Bool :=
  (d, true)

/-- Member `getParams()` (lines 173-175). -/
def KukaJAVAdriver.getParams (d : KukaJAVAdriver) : Params :=
  d.params_

/-- The destructor `~KukaJAVAdriver()` (lines 177-184): releases the
keep-alive work token; if a worker thread exists, stops the io_service and
joins it.  Observable post-state: no work token, no (running) worker. -/
def KukaJAVAdriver.destruct (d : KukaJAVAdriver) : KukaJAVAdriver :=
  { d with device_driver_workP_ := false, driver_threadP := false }

/-- The tag types selecting a `set` overload (lines 259, 277, 306):
`grl::revolute_joint_angle_open_chain_command_tag`,
`grl::revolute_joint_torque_open_chain_command_tag`,
`grl::cartesian_wrench_command_tag`. -/
inductive CommandTag
  | revolute_joint_angle_open_chain_command
  | revolute_joint_torque_open_chain_command
  | cartesian_wrench_command
deriving DecidableEq

/-- The statement `std::copy(range, armState.commandedCartesianWrenchFeedForward)`
at line 308 is ill-formed C++ (`std::copy` requires an output-iterator third
argument, so this template fails to compile whenever it is instantiated).
The nearest well-formed reading — a range copy onto the start of the
destination, with NO preceding `clear()` — overwrites the first
`src.length` stored elements and keeps the remaining tail. -/
def copyOntoStart (src dst : List Rat) : List Rat :=
  src ++ dst.drop src.length

/-- The three `set(Range&& range, tag)` overloads (lines 258-309), dispatched
on the tag, each under `boost::lock_guard<boost::mutex> lock(jt_mutex)`:
* joint angle (lines 259-263): `armState.commandedPosition.clear()` then
  `boost::copy(range, std::back_inserter(...))` — a full replace;
* joint torque (lines 277-281): `armState.commandedTorque.clear()` then
  `boost::copy(range, std::back_inserter(...))` — a full replace;
* Cartesian wrench (lines 306-309): the ill-formed `std::copy` statement,
  with no `clear()`, modelled by `copyOntoStart`. -/
def KukaJAVAdriver.set (d : KukaJAVAdriver) (range : List Rat) :
    CommandTag → KukaJAVAdriver
  | CommandTag.revolute_joint_angle_open_chain_command =>
      { d with armState := { d.armState with commandedPosition := range } }
  | CommandTag.revolute_joint_torque_open_chain_command =>
      { d with armState := { d.armState with commandedTorque := range } }
  | CommandTag.cartesian_wrench_command =>
      let newWrench := copyOntoStart range d.armState.commandedCartesianWrenchFeedForward
      { d with armState :=
        { d.armState with commandedCartesianWrenchFeedForward := newWrench } }

/-- The stored sequence associated with each command kind. -/
def KukaJAVAdriver.storedCommand (d : KukaJAVAdriver) : CommandTag → List Rat
  | CommandTag.revolute_joint_angle_open_chain_command =>
      d.armState.commandedPosition
  | CommandTag.revolute_joint_torque_open_chain_command =>
      d.armState.commandedTorque
  | CommandTag.cartesian_wrench_command =>
      d.armState.commandedCartesianWrenchFeedForward

/-- Outcome of `get(OutputIterator output, revolute_joint_angle_open_chain_state_tag)`
(lines 312-316): either the unconditional fatal assertion, or a normal
completion writing a sequence through the output iterator. -/
inductive GetOutcome
  | fatalAssertion
  | completed (output : List Rat)
deriving DecidableEq

/-- Member `get(OutputIterator output, grl::revolute_joint_angle_open_chain_state_tag)`
(lines 312-316): the body is exactly `BOOST_VERIFY(false); // not implemented
yet` — an unconditional fatal assertion, on every driver state and output
iterator. -/
def KukaJAVAdriver.getJointAngleState (d : KukaJAVAdriver)
    (output : List Rat) : GetOutcome :=
  GetOutcome.fatalAssertion

/-- Member `get(KukaState& state)` (lines 319-323): copies `armState` out under the
mutex. -/
def KukaJAVAdriver.getState (d : KukaJAVAdriver) : KukaState :=
  d.armState

/-- Member `run_one()` (lines 188-238).  Returns the `haveNewData` flag, the
post-state, and the outgoing `JointState` message (if any) handed to
`async_send_flatbuffer`.  The code: `haveNewData = false`; if no Transport
handle (`kukaJavaDriverP`), fall through and return `false` with nothing
sent.  Otherwise: acquire a builder; `joints.clear()`; under the mutex copy
`armState.commandedPosition` into `joints`; build the position vector from
`joints`; `joints.clear()` (velocity: the source comment at line 219 notes
that no velocity is available and an empty vector is sent); under the mutex again: build the velocity vector from the
(empty) `joints`, `joints.clear()`, copy `armState.torque` into `joints`
(note: `armState.torque`, NOT `armState.commandedTorque`), build the
acceleration vector from `joints`, create and finish the `JointState`
message, and submit it asynchronously.  Returns `haveNewData`, which is
never reassigned. -/
def KukaJAVAdriver.run_one (d : KukaJAVAdriver) :
    Bool × KukaJAVAdriver × Option JointState :=
  let haveNewData := false
  match d.kukaJavaDriverP with
  | none => (haveNewData, d, none)
  | some _ =>
      let joints : List Rat := []
      let joints := joints ++ d.armState.commandedPosition
      let jointPos := joints
      let joints : List Rat := []
      let jointVel := joints
      let joints : List Rat := []
      let joints := joints ++ d.armState.torque
      let jointAccel := joints
      (haveNewData, d,
        some { position := jointPos, velocity := jointVel,
               acceleration := jointAccel })

/-- The externally visible steps of the `run_one()` body (lines 188-238), in
program order, used to reason about which steps execute while the `jt_mutex`
critical sections are open. -/
inductive Action
  | acquireBuilder
  | copyPositionToScratch
  | appendPositionField
  | appendVelocityField
  | copyTorqueToScratch
  | appendAccelerationField
  | finalizeMessage
  | submitAsync
deriving DecidableEq

/-- One step of `run_one()` together with whether the `jt_mutex` is held by a
live `boost::lock_guard` when the step executes. -/
structure Event where
  action : Action
  lockHeld : Bool
deriving DecidableEq

/-- The ordered step trace of one `run_one()` invocation, given whether a
Transport handle (`kukaJavaDriverP`) is configured.  Without a Transport the
body is skipped entirely.  With one (lines 199-233):
* line 205: `GetUnusedBufferBuilder()` — no lock;
* lines 209-212: first `lock_guard` scope — the copy of
  `armState.commandedPosition` into the scratch vector runs under the lock;
* line 213: `fbbP->CreateVector` for the position field — the first guard has
  been destroyed, no lock;
* lines 222-233: second `lock_guard` scope — `CreateVector` for the (empty)
  velocity field, the copy of `armState.torque` into the scratch vector,
  `CreateVector` for the acceleration field, `CreateJointState` +
  `FinishJointStateBuffer`, and `async_send_flatbuffer` ALL run before the
  guard is destroyed, i.e. with the lock held. -/
def run_one_events (transportConfigured : Bool) : List Event :=
  if transportConfigured then
    [ { action := Action.acquireBuilder, lockHeld := false }
    , { action := Action.copyPositionToScratch, lockHeld := true }
    , { action := Action.appendPositionField, lockHeld := false }
    , { action := Action.appendVelocityField, lockHeld := true }
    , { action := Action.copyTorqueToScratch, lockHeld := true }
    , { action := Action.appendAccelerationField, lockHeld := true }
    , { action := Action.finalizeMessage, lockHeld := true }
    , { action := Action.submitAsync, lockHeld := true } ]
  else
    []

/-- Whether an action is a copy of a StateStore field into the scratch
buffer (the only steps the spec allows to run under the mutex). -/
def Action.isScratchCopy : Action → Bool
  | Action.copyPositionToScratch => true
  | Action.copyTorqueToScratch => true
  | _ => false

/-- Whether an action appends a message field, finalizes the message, or
submits it to the Transport. -/
def Action.isBuildOrSubmit : Action → Bool
  | Action.appendPositionField => true
  | Action.appendVelocityField => true
  | Action.appendAccelerationField => true
  | Action.finalizeMessage => true
  | Action.submitAsync => true
  | _ => false

/-- The operations of the core, for reasoning about arbitrary operation
sequences.  `opConstruct` carries the params and the outcomes of the
external bind/connect calls; the `set` operations carry the input range. -/
inductive DriverOp
  | opConstruct (params : Params) (bindOk connectOk : Bool)
  | opSet (range : List Rat) (tag : CommandTag)
  | opSetState
  | opGetState
  | opRunOne
  | opDestruct
deriving DecidableEq

/-- Apply one operation to the driver state (discarding any operation
output, keeping the state effect). -/
def applyOp (d : KukaJAVAdriver) : DriverOp → KukaJAVAdriver
  | DriverOp.opConstruct params bindOk connectOk =>
      (d.construct params bindOk connectOk).1
  | DriverOp.opSet range tag => d.set range tag
  | DriverOp.opSetState => d.setState.1
  | DriverOp.opGetState => d
  | DriverOp.opRunOne => d.run_one.2.1
  | DriverOp.opDestruct => d.destruct

/-- Apply a sequence of operations in order. -/
def applyOps (d : KukaJAVAdriver) (ops : List DriverOp) : KukaJAVAdriver :=
  ops.foldl applyOp d

/-! ## Claims -/

/-- Helper: with a Transport configured, `run_one()` returns `false`, leaves
the driver unchanged, and submits the message whose position field is the
commanded position, whose velocity field is empty, and whose acceleration
field is `armState.torque`. -/
theorem run_one_message (d : KukaJAVAdriver)
    (h : d.kukaJavaDriverP = some ()) :
    d.run_one = (false, d,
      some { position := d.armState.commandedPosition, velocity := [],
             acceleration := d.armState.torque }) := by
  simp [KukaJAVAdriver.run_one, h]

/-- Helper: every `set` overload leaves the Transport handle untouched. -/
theorem set_preserves_transport (d : KukaJAVAdriver) (range : List Rat)
    (tag : CommandTag) :
    (d.set range tag).kukaJavaDriverP = d.kukaJavaDriverP := by
  cases tag <;> simp [KukaJAVAdriver.set]

/-- C1: For every sequence S of 7 values most recently stored via
`set(S, JointAngleCommand)`, a subsequent `run_one()` invocation with a
Transport configured builds an outgoing message whose position field is
exactly equal to S, with order preserved. -/
theorem C1_position_field_equals_commanded_angles
    (d : KukaJAVAdriver) (S : List Rat)
    (hlen : S.length = 7) (htrans : d.kukaJavaDriverP = some ()) :
    ∃ m : JointState,
      ((d.set S CommandTag.revolute_joint_angle_open_chain_command).run_one).2.2
        = some m ∧ m.position = S := by
  rw [run_one_message _ ((set_preserves_transport d S _).trans htrans)]
  exact ⟨_, rfl, by simp [KukaJAVAdriver.set]⟩

theorem C1_position_field_equals_commanded_angles_witness :
    ∃ m : JointState,
      (((((KukaJAVAdriver.init defaultParams).construct defaultParams true
              true).1).set [1, 2, 3, 4, 5, 6, 7]
            CommandTag.revolute_joint_angle_open_chain_command).run_one).2.2
        = some m ∧ m.position = [1, 2, 3, 4, 5, 6, 7] :=
  C1_position_field_equals_commanded_angles _ _ (by decide) (by rfl)

/-- C2 (code-bug evidence): starting from a freshly constructed driver with a
Transport configured, storing T = [1,2,3,4,5,6,7] via
`set(T, JointTorqueCommand)` and then invoking `run_one()` leaves
T in `armState.commandedTorque`, yet the acceleration field of the outgoing
message is the empty list, not T: `run_one` (line 228) copies
`armState.torque` — the measured torque feedback, which no operation of this
file ever writes — instead of `armState.commandedTorque`, which the torque
`set` overload writes and nothing reads. -/
theorem C2_acceleration_field_is_not_commanded_torque :
    ∃ m : JointState,
      (((((KukaJAVAdriver.init defaultParams).construct defaultParams true
              true).1).set [1, 2, 3, 4, 5, 6, 7]
            CommandTag.revolute_joint_torque_open_chain_command).run_one).2.2
        = some m ∧
      ((((KukaJAVAdriver.init defaultParams).construct defaultParams true
              true).1).set [1, 2, 3, 4, 5, 6, 7]
            CommandTag.revolute_joint_torque_open_chain_command).armState.commandedTorque
        = [1, 2, 3, 4, 5, 6, 7] ∧
      m.acceleration = [] ∧ m.acceleration ≠ [1, 2, 3, 4, 5, 6, 7] := by
  refine ⟨{ position := [], velocity := [], acceleration := [] }, ?_, ?_, rfl, ?_⟩ <;>
    decide

/-- C3: `run_one()` returns false on every invocation, regardless of whether
a Transport is configured and regardless of whether a message was built and
submitted. -/
theorem C3_run_one_always_returns_false (d : KukaJAVAdriver) :
    d.run_one.1 = false := by
  cases h : d.kukaJavaDriverP <;> simp [KukaJAVAdriver.run_one, h]

/-- C4 (counterexample): it is NOT the case that during `run_one()` with a
Transport configured the mutex is held only at scratch-copy steps and never
at field-append, finalize or submit steps: the trace contains steps that
append fields, finalize and submit with the lock held. -/
theorem C4_lock_only_during_copies_counterexample :
    ¬ (∀ e ∈ run_one_events true,
        (e.lockHeld = true → e.action.isScratchCopy = true) ∧
        (e.action.isBuildOrSubmit = true → e.lockHeld = false)) := by
  decide

/-- C4 (amended): during a `run_one()` invocation with a Transport
configured, the builder acquisition and the position-field append run with
the mutex released, and the position copy runs under the first critical
section; but the second critical section holds the mutex across the
velocity-field append, the torque copy, the acceleration-field append, the
message finalization, and the asynchronous submission — exactly these steps
execute with the lock held. -/
theorem C4_lock_discipline :
    (run_one_events true).filter (fun e => e.lockHeld) =
      [ { action := Action.copyPositionToScratch, lockHeld := true }
      , { action := Action.appendVelocityField, lockHeld := true }
      , { action := Action.copyTorqueToScratch, lockHeld := true }
      , { action := Action.appendAccelerationField, lockHeld := true }
      , { action := Action.finalizeMessage, lockHeld := true }
      , { action := Action.submitAsync, lockHeld := true } ] ∧
    (run_one_events true).filter (fun e => !e.lockHeld) =
      [ { action := Action.acquireBuilder, lockHeld := false }
      , { action := Action.appendPositionField, lockHeld := false } ] := by
  decide

/-- C5 (code-bug evidence): `set` for the Cartesian-wrench kind is not a
full replace.  After a wrench of 6 components [9,9,9,9,9,9] is stored,
`set([1,2], CartesianWrenchCommand)` leaves the stored sequence
[1,2,9,9,9,9] — the new values copied over the front with the old tail kept
(no `clear()`; and the `std::copy(range, dest)` call at line 308 is
ill-formed C++ in the first place) — not [1,2]. -/
theorem C5_wrench_set_is_not_full_replace :
    (((KukaJAVAdriver.init defaultParams).set [9, 9, 9, 9, 9, 9]
          CommandTag.cartesian_wrench_command).set [1, 2]
        CommandTag.cartesian_wrench_command).storedCommand
      CommandTag.cartesian_wrench_command = [1, 2, 9, 9, 9, 9] ∧
    ([1, 2, 9, 9, 9, 9] : List Rat) ≠ [1, 2] := by
  decide

/-- C6: for every invocation of `run_one()` with a Transport configured, and
for every stored state, the velocity field of the outgoing message is the
empty vector. -/
theorem C6_velocity_field_always_empty
    (d : KukaJAVAdriver) (htrans : d.kukaJavaDriverP = some ()) :
    ∃ m : JointState, d.run_one.2.2 = some m ∧ m.velocity = [] := by
  rw [run_one_message d htrans]
  exact ⟨_, rfl, rfl⟩

theorem C6_velocity_field_always_empty_witness :
    ∃ m : JointState,
      (((KukaJAVAdriver.init defaultParams).construct defaultParams true
          true).1).run_one.2.2 = some m ∧ m.velocity = [] :=
  C6_velocity_field_always_empty _ (by rfl)

/-- C7: for every driver state in which no Transport is configured,
`run_one()` returns false, leaves the entire driver state unchanged
(commanded state, params, transport handle, worker thread, counters), and
submits nothing. -/
theorem C7_run_one_without_transport_is_noop
    (d : KukaJAVAdriver) (h : d.kukaJavaDriverP = none) :
    d.run_one = (false, d, none) := by
  simp [KukaJAVAdriver.run_one, h]

theorem C7_run_one_without_transport_is_noop_witness :
    (KukaJAVAdriver.init defaultParams).run_one =
      (false, KukaJAVAdriver.init defaultParams, none) :=
  C7_run_one_without_transport_is_noop _ rfl

/-- C8: for every input, invoking the joint-state read-back operation
`get(output, revolute_joint_angle_open_chain_state_tag)` signals the
unconditional fatal assertion `BOOST_VERIFY(false)`; there is no input for
which it completes normally. -/
theorem C8_joint_state_readback_always_fatal
    (d : KukaJAVAdriver) (output : List Rat) :
    d.getJointAngleState output = GetOutcome.fatalAssertion ∧
      ∀ result : List Rat,
        d.getJointAngleState output ≠ GetOutcome.completed result := by
  exact ⟨rfl, fun result h => by cases h⟩

/-- C9: for every params table on which binding the local endpoint or
connecting the remote endpoint fails, `construct(params)` propagates a
failure to the caller that carries the attempted local and remote addresses
taken from params, and leaves the driver without a Transport handle. -/
theorem C9_construct_failure_carries_addresses
    (d : KukaJAVAdriver) (params : Params) (bindOk connectOk : Bool)
    (hfail : (bindOk && connectOk) = false)
    (hnone : d.kukaJavaDriverP = none) :
    ∃ e : String,
      (d.construct params bindOk connectOk).2 = some e ∧
      (∃ s1 s2 : String,
        e = s1 ++ params.localZMQAddress ++ s2 ++ params.remoteZMQAddress) ∧
      (d.construct params bindOk connectOk).1.kukaJavaDriverP = none := by
  refine ⟨"KukaLBRiiwaRosPlugin: Unable to connect to ZeroMQ Socket from "
      ++ params.localZMQAddress ++ " to " ++ params.remoteZMQAddress,
    ?_,
    ⟨"KukaLBRiiwaRosPlugin: Unable to connect to ZeroMQ Socket from ",
      " to ", rfl⟩, ?_⟩ <;>
    simp [KukaJAVAdriver.construct, hfail, hnone]

theorem C9_construct_failure_carries_addresses_witness :
    ∃ e : String,
      ((KukaJAVAdriver.init defaultParams).construct defaultParams false
          false).2 = some e ∧
      (∃ s1 s2 : String,
        e = s1 ++ defaultParams.localZMQAddress ++ s2 ++
          defaultParams.remoteZMQAddress) ∧
      ((KukaJAVAdriver.init defaultParams).construct defaultParams false
          false).1.kukaJavaDriverP = none :=
  C9_construct_failure_carries_addresses (KukaJAVAdriver.init defaultParams)
    defaultParams false false rfl rfl

/-- Helper for C10: no single operation changes any of the four health
counters. -/
theorem counters_applyOp (d : KukaJAVAdriver) (op : DriverOp) :
    (applyOp d op).m_haveReceivedRealDataCount =
        d.m_haveReceivedRealDataCount ∧
    (applyOp d op).m_attemptedCommunicationCount =
        d.m_attemptedCommunicationCount ∧
    (applyOp d op).m_attemptedCommunicationConsecutiveFailureCount =
        d.m_attemptedCommunicationConsecutiveFailureCount ∧
    (applyOp d op).m_attemptedCommunicationConsecutiveSuccessCount =
        d.m_attemptedCommunicationConsecutiveSuccessCount := by
  cases op with
  | opConstruct params bindOk connectOk =>
      simp only [applyOp, KukaJAVAdriver.construct]
      split <;> simp
  | opSet range tag => cases tag <;> simp [applyOp, KukaJAVAdriver.set]
  | opSetState => simp [applyOp, KukaJAVAdriver.setState]
  | opGetState => simp [applyOp]
  | opRunOne =>
      simp only [applyOp, KukaJAVAdriver.run_one]
      cases d.kukaJavaDriverP <;> simp
  | opDestruct => simp [applyOp, KukaJAVAdriver.destruct]

/-- Helper for C10: no operation sequence changes any of the four health
counters. -/
theorem counters_applyOps (d : KukaJAVAdriver) (ops : List DriverOp) :
    (applyOps d ops).m_haveReceivedRealDataCount =
        d.m_haveReceivedRealDataCount ∧
    (applyOps d ops).m_attemptedCommunicationCount =
        d.m_attemptedCommunicationCount ∧
    (applyOps d ops).m_attemptedCommunicationConsecutiveFailureCount =
        d.m_attemptedCommunicationConsecutiveFailureCount ∧
    (applyOps d ops).m_attemptedCommunicationConsecutiveSuccessCount =
        d.m_attemptedCommunicationConsecutiveSuccessCount := by
  induction ops generalizing d with
  | nil => simp [applyOps]
  | cons op rest ih =>
      have h1 := counters_applyOp d op
      have h2 := ih (applyOp d op)
      simp only [applyOps, List.foldl_cons] at h2 ⊢
      exact ⟨h2.1.trans h1.1, h2.2.1.trans h1.2.1,
        h2.2.2.1.trans h1.2.2.1, h2.2.2.2.trans h1.2.2.2⟩

/-- C10: no operation of the core (construct, set for any command kind, get,
setState, run_one, or the destructor) ever modifies the four communication
health counters; after any sequence of operations on a freshly constructed
driver they still hold their initial value 0. -/
theorem C10_health_counters_stay_zero (params : Params) (ops : List DriverOp) :
    (applyOps (KukaJAVAdriver.init params) ops).m_haveReceivedRealDataCount
        = 0 ∧
    (applyOps (KukaJAVAdriver.init params) ops).m_attemptedCommunicationCount
        = 0 ∧
    (applyOps (KukaJAVAdriver.init params)
        ops).m_attemptedCommunicationConsecutiveFailureCount = 0 ∧
    (applyOps (KukaJAVAdriver.init params)
        ops).m_attemptedCommunicationConsecutiveSuccessCount = 0 := by
  simpa [KukaJAVAdriver.init] using
    counters_applyOps (KukaJAVAdriver.init params) ops

end arm
end robot
end grl
